import Mathlib

/-!
Shallow embedding of the client-side auth/session/notification state
coordinator in `src/src/features/get-start/sections/OwnerSignInSection.tsx`
(the `AuthProvider` / `useAuth` module).

JavaScript `null`/`undefined`-able values are modelled with `Option`;
`Date` timestamps and the opaque `data` payload are modelled with `Nat`
and `String` carriers (the code never inspects them).  Dispatches issued
inside one synchronous callback are batched by the runtime, so a
composite update such as `setUser` (two dispatches) is modelled as the
composition of the two reducer steps: consumers observe only the final
snapshot of a callback run.
-/

namespace OwnerSignIn

/-- The slice of the external provider's `User` record the module reads
(`user.id` / `defaultUser?.id`). -/
structure User where
  id : String
deriving DecidableEq

/-- `ProfileInput` is imported opaque from the auth schema; the module never
inspects its fields, so a single opaque carrier suffices. -/
structure ProfileInput where
  payload : String
deriving DecidableEq

/-- The `Notification` record type exported by the module.  `from` and `to`
are Lean keywords, hence the trailing underscore; dates are timestamp
carriers. -/
structure Notification where
  id : String
  from_ : String
  to_ : String
  collection : String
  type : String
  message : String
  data : String
  link : String
  viewed : Bool
  created_at : Nat
  updated_at : Nat
deriving DecidableEq

/-- The `State` snapshot held by the provider's reducer. -/
structure State where
  loading : Bool
  authenticated : Bool
  user : Option User
  profile : Option ProfileInput
  error : String
  view : String
  notifications : List Notification
deriving DecidableEq

/-- The field names the reducer's dynamic `[type]: payload` dispatch is
invoked with (the keys of `State`). -/
inductive FieldName where
  | loading
  | authenticated
  | user
  | profile
  | error
  | view
  | notifications
deriving DecidableEq

/-- A dispatched action `{ type, payload }`: one constructor per field name,
carrying the payload the call sites pass for that field. -/
inductive SetAction where
  | loading (b : Bool)
  | authenticated (b : Bool)
  | user (u : Option User)
  | profile (p : Option ProfileInput)
  | error (e : String)
  | view (v : String)
  | notifications (l : List Notification)
deriving DecidableEq

/-- The field name (`type` string) of an action. -/
def SetAction.field : SetAction → FieldName
  | .loading _ => .loading
  | .authenticated _ => .authenticated
  | .user _ => .user
  | .profile _ => .profile
  | .error _ => .error
  | .view _ => .view
  | .notifications _ => .notifications

/-- A tagged field value, used to read any field of the snapshot uniformly
(the JS state is a record of untyped values). -/
inductive FieldValue where
  | boolV (b : Bool)
  | userV (u : Option User)
  | profileV (p : Option ProfileInput)
  | stringV (s : String)
  | notifsV (l : List Notification)
deriving DecidableEq

/-- The payload of an action, as a tagged value. -/
def SetAction.value : SetAction → FieldValue
  | .loading b => .boolV b
  | .authenticated b => .boolV b
  | .user u => .userV u
  | .profile p => .profileV p
  | .error e => .stringV e
  | .view v => .stringV v
  | .notifications l => .notifsV l

/-- Read a named field of the snapshot, tagged. -/
def State.get (s : State) : FieldName → FieldValue
  | .loading => .boolV s.loading
  | .authenticated => .boolV s.authenticated
  | .user => .userV s.user
  | .profile => .profileV s.profile
  | .error => .stringV s.error
  | .view => .stringV s.view
  | .notifications => .notifsV s.notifications

/-- The reducer: `(state, {type, payload}) => ({...state, [type]: payload})` —
the addressed field is overwritten with the payload, all others are spread
through unchanged. -/
def reduce (s : State) : SetAction → State
  | .loading b => { s with loading := b }
  | .authenticated b => { s with authenticated := b }
  | .user u => { s with user := u }
  | .profile p => { s with profile := p }
  | .error e => { s with error := e }
  | .view v => { s with view := v }
  | .notifications l => { s with notifications := l }

/-- Apply a finite sequence of dispatched actions to a snapshot, left to
right. -/
def applyAll (s : State) (acts : List SetAction) : State :=
  acts.foldl reduce s

/-- The payload of the last action in the sequence addressing field `g`,
if any. -/
def lastSet (g : FieldName) : List SetAction → Option FieldValue
  | [] => none
  | a :: rest =>
      match lastSet g rest with
      | some v => some v
      | none => if a.field = g then some a.value else none

/-- `Boolean(value?.id)`: false on a missing user or an empty-string id,
true on a non-empty id. -/
def boolId : Option User → Bool
  | none => false
  | some u => !(u.id == "")

/-- `setUser`: dispatches `{type: "user"}` then `{type: "authenticated",
payload: Boolean(value?.id)}`; batched into one observable update. -/
def setUser (s : State) (value : Option User) : State :=
  reduce (reduce s (.user value)) (.authenticated (boolId value))

/-- `setProfile`. -/
def setProfile (s : State) (value : Option ProfileInput) : State :=
  reduce s (.profile value)

/-- `setError`. -/
def setError (s : State) (value : String) : State :=
  reduce s (.error value)

/-- `setView`. -/
def setView (s : State) (value : String) : State :=
  reduce s (.view value)

/-- `setNotifications`. -/
def setNotifications (s : State) (value : List Notification) : State :=
  reduce s (.notifications value)

/-- The initial reducer state of `AuthProvider` (`useReducer` seed). -/
def initialState (defaultUser : Option User) (defaultProfile : Option ProfileInput)
    (notifications : List Notification) : State :=
  { loading := true
    authenticated := boolId defaultUser
    user := defaultUser
    profile := defaultProfile
    error := ""
    view := ""
    notifications := notifications }

/-! ### URL model and the `actionSignOut` workflow -/

/-- A parsed URL as the workflow manipulates it: `new URL(site)` yields the
configured site URL's origin, pathname and search params; the workflow then
overwrites `pathname` and sets one search param. -/
structure UrlModel where
  origin : String
  pathname : String
  searchParams : List (String × String)
deriving DecidableEq

/-- `URLSearchParams.set(k, v)`: replace the first pair with key `k` by
`(k, v)` and drop any later pairs with that key; append at the end when the
key is absent. -/
def setParam : List (String × String) → String → String → List (String × String)
  | [], k, v => [(k, v)]
  | (k0, v0) :: rest, k, v =>
      if k0 = k then (k, v) :: rest.filter (fun p => p.1 ≠ k)
      else (k0, v0) :: setParam rest k v

/-- `URLSearchParams.get(k)`: the value of the first pair with key `k`. -/
def getParam (u : UrlModel) (k : String) : Option String :=
  (u.searchParams.find? (fun p => p.1 = k)).map (fun p => p.2)

/-- Navigation kind: `router.replace` versus `router.push`. -/
inductive NavMode where
  | replace
  | push
deriving DecidableEq

/-- One observable step of the `actionSignOut` workflow, in the order the
function performs them. -/
inductive SignOutStep where
  | authSignOut
  | navigate (mode : NavMode) (url : UrlModel)
  | dispatch (a : SetAction)
  | toastSuccess (msg : String)
deriving DecidableEq

/-- The redirect target built at the top of `actionSignOut`:
`new URL(NEXT_PUBLIC_SITE_URL)` with `pathname = "/"` and
`searchParams.set("redirectTo", pathName)`. -/
def redirectUrlOf (siteUrl : UrlModel) (pathName : String) : UrlModel :=
  { siteUrl with
    pathname := "/"
    searchParams := setParam siteUrl.searchParams "redirectTo" pathName }

/-- `actionSignOut` as its trace of observable steps: await the provider
sign-out, `router.replace` the redirect target, `setUser(null)` (its two
batched dispatches), `setProfile(null)`, then the success toast. -/
def actionSignOut (siteUrl : UrlModel) (pathName : String) : List SignOutStep :=
  let redirectUrl := redirectUrlOf siteUrl pathName
  [ .authSignOut
  , .navigate .replace redirectUrl
  , .dispatch (.user none)
  , .dispatch (.authenticated (boolId none))
  , .dispatch (.profile none)
  , .toastSuccess "You have been signed out" ]

/-- Effect of one workflow step on the snapshot (only dispatches touch it). -/
def applySignOutStep (s : State) : SignOutStep → State
  | .dispatch a => reduce s a
  | _ => s

/-- The snapshot after the whole `actionSignOut` workflow runs from `s`. -/
def signOutFinalState (s : State) (siteUrl : UrlModel) (pathName : String) : State :=
  (actionSignOut siteUrl pathName).foldl applySignOutStep s

/-! ### Auth-state-change handler -/

/-- The slice of a session the handler reads (`currentSession.user`). -/
structure Session where
  user : User
deriving DecidableEq

/-- The `onAuthStateChange` callback body: with a session, `setUser` from the
session then set the fetched profile and notifications; with no session,
clear user, profile and notifications.  The two backend fetch results are
passed in as parameters (`getCurrentProfile()` / `getNotifications()`). -/
def onAuthStateChange (s : State) (currentSession : Option Session)
    (fetchedProfile : Option ProfileInput) (fetchedNotifications : List Notification) : State :=
  match currentSession with
  | some session =>
      setNotifications (setProfile (setUser s (some session.user)) fetchedProfile)
        fetchedNotifications
  | none =>
      setNotifications (setProfile (setUser s none) none) []

/-! ### Notification change-feed subscription and handler -/

/-- The change-feed filter string built when subscribing:
`to=eq.` followed by `state.user.id`, read without any guard — on an empty
(`null`) user the property access throws, modelled as `none`. -/
def subscriptionFilter (user : Option User) : Option String :=
  user.map (fun u => "to=eq." ++ u.id)

/-- A `postgres_changes` payload: the event type string and the `new` / `old`
records the branches dereference. -/
structure ChangePayload where
  eventType : String
  newRec : Notification
  oldRec : Notification
deriving DecidableEq

/-- The change-feed callback body, acting on the `notifications` list the
closure captured (the provider's `notifications` prop, not
`state.notifications`).  Returns the `setNotifications` payload dispatched
(if any) and the toast message emitted (if any). -/
def handleChange (captured : List Notification) (p : ChangePayload) :
    Option (List Notification) × Option String :=
  if p.eventType = "INSERT" then
    (some (captured ++ [p.newRec]), some p.newRec.message)
  else if p.eventType = "UPDATE" then
    (some (captured.map (fun n => if n.id = p.newRec.id then p.newRec else n)),
      some p.newRec.message)
  else if p.eventType = "DELETE" then
    (some (captured.filter (fun t => t.id ≠ p.oldRec.id)), none)
  else
    (none, none)

/-- The snapshot after the change-feed callback runs: the dispatched
`setNotifications` (if any) applied to the current snapshot, paired with the
toast emitted. -/
def applyChange (captured : List Notification) (s : State) (p : ChangePayload) :
    State × Option String :=
  match handleChange captured p with
  | (some l, t) => (setNotifications s l, t)
  | (none, t) => (s, t)

/-! ### Context and `useAuth` -/

/-- A JS value of the `AuthContext` type position: `undefined`, the literal
default `[null, null]` passed to `createContext`, or a provider-supplied
`[state, actions]` pair (actions elided; they carry no state). -/
inductive AuthContextValue where
  | undef
  | nullPair
  | provided (s : State)
deriving DecidableEq

/-- `createContext<[State, Actions]>([null, null])`: the context default. -/
def authContextDefault : AuthContextValue := .nullPair

/-- `useContext(AuthContext)`: the nearest provider's value when inside one,
otherwise the context default. -/
def useContextAuth (providerValue : Option AuthContextValue) : AuthContextValue :=
  providerValue.getD authContextDefault

/-- Result of a `useAuth` call: either a thrown error or the returned value. -/
inductive UseAuthOutcome where
  | thrown (msg : String)
  | returned (v : AuthContextValue)
deriving DecidableEq

/-- `useAuth`: reads the context and throws only when the read value is
`undefined`. -/
def useAuth (providerValue : Option AuthContextValue) : UseAuthOutcome :=
  let context := useContextAuth providerValue
  if context = .undef then .thrown "useAuth must be used within an AuthProvider"
  else .returned context

/-! ### Concrete sample values (used by closed evaluation theorems) -/

/-- A concrete notification record with the given id and message. -/
def mkNotification (id msg : String) : Notification :=
  { id := id
    from_ := "sys"
    to_ := "u1"
    collection := "notifications"
    type := "info"
    message := msg
    data := ""
    link := ""
    viewed := false
    created_at := 0
    updated_at := 0 }

/-- A concrete change-feed payload. -/
def mkPayload (ev : String) (newRec oldRec : Notification) : ChangePayload :=
  { eventType := ev, newRec := newRec, oldRec := oldRec }

/-- A concrete configured site URL (`NEXT_PUBLIC_SITE_URL`, parsed). -/
def sampleSite : UrlModel :=
  { origin := "https://site.example", pathname := "/", searchParams := [] }

/-! ### Helper lemmas -/

/-- After `searchParams.set(k, v)`, looking up `k` yields `v`. -/
theorem find?_setParam (l : List (String × String)) (k v : String) :
    (setParam l k v).find? (fun p => p.1 = k) = some (k, v) := by
  induction l with
  | nil => simp [setParam, List.find?]
  | cons hd tl ih =>
    obtain ⟨k0, v0⟩ := hd
    by_cases h : k0 = k
    · subst h
      simp [setParam, List.find?]
    · simp [setParam, List.find?, h, ih]

/-- `Boolean(value?.id)` is true exactly on a present, non-empty id. -/
theorem boolId_eq_true (u : Option User) :
    boolId u = true ↔ ∃ x, u = some x ∧ x.id ≠ "" := by
  cases u with
  | none => simp [boolId]
  | some x => simp [boolId]

/-- Reading the field a reducer action addresses yields its payload. -/
theorem get_reduce_self (s : State) (a : SetAction) :
    (reduce s a).get a.field = a.value := by
  cases a <;> rfl

/-- Reading any other field after a reducer step is unchanged (frame). -/
theorem get_reduce_frame (s : State) (a : SetAction) (g : FieldName)
    (h : g ≠ a.field) : (reduce s a).get g = s.get g := by
  cases a <;> cases g <;> first | rfl | exact absurd rfl h

/-- After a sequence of dispatches, each field holds the last value set for
it, or its starting value if never set. -/
theorem applyAll_lastSet (acts : List SetAction) (s : State) (g : FieldName) :
    (applyAll s acts).get g = (lastSet g acts).getD (s.get g) := by
  induction acts generalizing s with
  | nil => rfl
  | cons a rest ih =>
    show (applyAll (reduce s a) rest).get g = (lastSet g (a :: rest)).getD (s.get g)
    rw [ih]
    cases hrest : lastSet g rest with
    | some v => simp [lastSet, hrest]
    | none =>
      by_cases hg : a.field = g
      · subst hg
        simp [lastSet, hrest, get_reduce_self]
      · have hg2 : g ≠ a.field := fun h => hg h.symm
        simp [lastSet, hrest, hg, get_reduce_frame _ _ _ hg2]

/-! ### Claim theorems -/

/-- Claim C1: for every invocation of `signOut()` with current pathname `p`,
the workflow performs, in order: build a redirect URL from the configured
site origin with path set to root and query parameter `redirectTo` equal to
`p`; invoke the external auth provider's sign-out; navigate to that URL via
replace (not push); clear `user` and `profile` to empty; emit a success
notice. -/
theorem signOut_workflow (siteUrl : UrlModel) (pathName : String) (s : State) :
    actionSignOut siteUrl pathName =
      [ .authSignOut
      , .navigate .replace (redirectUrlOf siteUrl pathName)
      , .dispatch (.user none)
      , .dispatch (.authenticated false)
      , .dispatch (.profile none)
      , .toastSuccess "You have been signed out" ]
    ∧ (redirectUrlOf siteUrl pathName).origin = siteUrl.origin
    ∧ (redirectUrlOf siteUrl pathName).pathname = "/"
    ∧ getParam (redirectUrlOf siteUrl pathName) "redirectTo" = some pathName
    ∧ (signOutFinalState s siteUrl pathName).user = none
    ∧ (signOutFinalState s siteUrl pathName).profile = none := by
  refine ⟨rfl, rfl, rfl, ?_, rfl, rfl⟩
  simp [getParam, redirectUrlOf, find?_setParam]

/-- Claim C2: after `setUser(u)` the snapshot has `user = u` and
`authenticated = true` iff `u` has a non-empty id; the two field updates are
applied together in one observable update (`setUser` is their composition,
batched); the same invariant holds in the initial snapshot. -/
theorem setUser_authenticated_consistent (s : State) (u : Option User)
    (du : Option User) (dp : Option ProfileInput) (ns : List Notification) :
    (setUser s u).user = u
    ∧ ((setUser s u).authenticated = true ↔ ∃ x, u = some x ∧ x.id ≠ "")
    ∧ (setUser s u).authenticated = boolId u
    ∧ (initialState du dp ns).user = du
    ∧ ((initialState du dp ns).authenticated = true ↔ ∃ x, du = some x ∧ x.id ≠ "") := by
  refine ⟨rfl, ?_, rfl, rfl, ?_⟩
  · exact boolId_eq_true u
  · exact boolId_eq_true du

/-- Claim C3: `reduce` replaces exactly the addressed field and leaves every
other field unchanged; consequently after any finite sequence of dispatched
actions each field equals the last value set for it, or its initial value if
never set. -/
theorem reducer_field_replacement :
    (∀ (s : State) (a : SetAction), (reduce s a).get a.field = a.value)
    ∧ (∀ (s : State) (a : SetAction) (g : FieldName), g ≠ a.field →
        (reduce s a).get g = s.get g)
    ∧ (∀ (s : State) (acts : List SetAction) (g : FieldName),
        (applyAll s acts).get g = (lastSet g acts).getD (s.get g)) :=
  ⟨get_reduce_self, get_reduce_frame, fun s acts g => applyAll_lastSet acts s g⟩

/-- Witness for C3 at concrete inputs: a frame read, a written-field read,
and a three-action sequence where the last `error` write wins. -/
theorem reducer_field_replacement_witness :
    (reduce (initialState none none []) (.error "e")).get .view =
        (initialState none none []).get .view
    ∧ (reduce (initialState none none []) (.error "e")).get .error = .stringV "e"
    ∧ (applyAll (initialState none none [])
        [.error "a", .view "w", .error "b"]).get .error = .stringV "b" :=
  ⟨reducer_field_replacement.2.1 _ (.error "e") .view (by decide),
    reducer_field_replacement.1 _ (.error "e"),
    (reducer_field_replacement.2.2 _ [.error "a", .view "w", .error "b"] .error).trans
      (by rfl)⟩

/-- Claim C4 (evaluation at the failing input): the INSERT branch appends to
the list captured by the subscription closure (the provider's
`notifications` prop), not to the snapshot's current notifications.  With
captured prop `[]` and current notifications `[n0]`, an INSERT of `n1`
produces `[n1]`, not `[n0, n1]`; a second INSERT then produces `[n2]`,
losing `n1`.  The spec's empty-current scenario (result exactly `[r]`) does
hold when the captured list is empty. -/
theorem insert_appends_captured_prop :
    (applyChange []
        { initialState none none [] with notifications := [mkNotification "n0" "m0"] }
        (mkPayload "INSERT" (mkNotification "n1" "Hi") (mkNotification "n1" "Hi"))).1.notifications
      = [mkNotification "n1" "Hi"]
    ∧ [mkNotification "n1" "Hi"] ≠ [mkNotification "n0" "m0"] ++ [mkNotification "n1" "Hi"]
    ∧ (applyChange []
        ((applyChange [] (initialState none none [])
            (mkPayload "INSERT" (mkNotification "n1" "Hi") (mkNotification "n1" "Hi"))).1)
        (mkPayload "INSERT" (mkNotification "n2" "Yo") (mkNotification "n2" "Yo"))).1.notifications
      = [mkNotification "n2" "Yo"]
    ∧ (applyChange [] (initialState none none [])
        (mkPayload "INSERT" (mkNotification "n1" "Hi") (mkNotification "n1" "Hi"))).1.notifications
      = [mkNotification "n1" "Hi"]
    ∧ (applyChange [] (initialState none none [])
        (mkPayload "INSERT" (mkNotification "n1" "Hi") (mkNotification "n1" "Hi"))).2
      = some "Hi" := by
  refine ⟨rfl, by decide, rfl, rfl, rfl⟩

/-- Claim C5 (evaluation at the failing input): the UPDATE and DELETE
branches map/filter the closure-captured `notifications` prop and dispatch
the result into the snapshot, so an event whose id matches nothing does NOT
leave the snapshot's sequence unchanged whenever the snapshot has diverged
from the captured prop: with captured prop `[n0]` and snapshot notifications
`[n0, n1]`, an UPDATE with unknown id `nX` and a DELETE with unknown id `nY`
each overwrite the snapshot's sequence with `[n0]`, dropping `n1` — the same
stale-closure slip as the INSERT branch. -/
theorem update_delete_clobber_snapshot :
    (applyChange [mkNotification "n0" "m0"]
        { initialState none none [] with
          notifications := [mkNotification "n0" "m0", mkNotification "n1" "Hi"] }
        (mkPayload "UPDATE" (mkNotification "nX" "x") (mkNotification "nX" "x"))).1.notifications
      = [mkNotification "n0" "m0"]
    ∧ (applyChange [mkNotification "n0" "m0"]
        { initialState none none [] with
          notifications := [mkNotification "n0" "m0", mkNotification "n1" "Hi"] }
        (mkPayload "DELETE" (mkNotification "nY" "y") (mkNotification "nY" "y"))).1.notifications
      = [mkNotification "n0" "m0"]
    ∧ [mkNotification "n0" "m0"]
        ≠ [mkNotification "n0" "m0", mkNotification "n1" "Hi"] := by
  refine ⟨rfl, rfl, by decide⟩

/-- Claim C6 (evaluation at the failing input): a `useAuth` call with no
enclosing provider does not throw — the context default is the literal
`[null, null]`, the guard only compares against `undefined`, so the default
pair is returned silently. -/
theorem useAuth_outside_provider_no_throw :
    useAuth none = .returned .nullPair
    ∧ authContextDefault = .nullPair
    ∧ (∀ msg, useAuth none ≠ .thrown msg) := by
  refine ⟨rfl, rfl, ?_⟩
  intro msg h
  have hval : useAuth none = .returned .nullPair := rfl
  rw [hval] at h
  exact UseAuthOutcome.noConfusion h

/-- Claim C7 (evaluation at the failing input): after fully processing the
first auth-state event (session user `u1`, fetched profile and
notifications) on the initial snapshot, `loading` is still `true`; indeed no
auth event and no sign-out ever writes the `loading` field. -/
theorem loading_never_cleared :
    (onAuthStateChange (initialState none none [])
        (some { user := { id := "u1" } }) (some { payload := "p" })
        [mkNotification "n1" "Hi"]).loading = true
    ∧ (∀ (s : State) (c : Option Session) (fp : Option ProfileInput)
        (fn : List Notification), (onAuthStateChange s c fp fn).loading = s.loading)
    ∧ (∀ (s : State) (site : UrlModel) (path : String),
        (signOutFinalState s site path).loading = s.loading) := by
  refine ⟨rfl, ?_, ?_⟩
  · intro s c fp fn
    cases c <;> rfl
  · intro s site path
    rfl

/-- Counterexample to claim C8: starting from a snapshot whose `error` is
"boom", the sign-out success path leaves `error` at "boom" — it is not
cleared to empty. -/
theorem error_not_cleared_counterexample :
    (signOutFinalState { initialState none none [] with error := "boom" }
        sampleSite "/dashboard").error = "boom"
    ∧ "boom" ≠ "" := by
  exact ⟨rfl, by decide⟩

/-- Claim C8 as amended: no success path writes the `error` field — both the
sign-out workflow and auth-event processing leave `error` exactly as it was;
`error` starts empty and changes only via an explicit `setError`. -/
theorem error_unchanged_on_success_paths :
    (∀ (s : State) (site : UrlModel) (path : String),
        (signOutFinalState s site path).error = s.error)
    ∧ (∀ (s : State) (c : Option Session) (fp : Option ProfileInput)
        (fn : List Notification), (onAuthStateChange s c fp fn).error = s.error)
    ∧ (∀ (du : Option User) (dp : Option ProfileInput) (ns : List Notification),
        (initialState du dp ns).error = "")
    ∧ (∀ (s : State) (e : String), (setError s e).error = e) := by
  refine ⟨fun s site path => rfl, ?_, fun du dp ns => rfl, fun s e => rfl⟩
  intro s c fp fn
  cases c <;> rfl

/-- Claim C9: the change-feed subscription filter reads `state.user.id`
with no guard — it is undefined exactly on the empty user — and empty-user
snapshots are reachable: both a no-session auth event and the sign-out
workflow set `user` to empty. -/
theorem changefeed_filter_unguarded_on_empty_user :
    (∀ u : Option User, subscriptionFilter u = none ↔ u = none)
    ∧ (∀ x : User, subscriptionFilter (some x) = some ("to=eq." ++ x.id))
    ∧ (∀ (s : State) (fp : Option ProfileInput) (fn : List Notification),
        (onAuthStateChange s none fp fn).user = none)
    ∧ (∀ (s : State) (site : UrlModel) (path : String),
        (signOutFinalState s site path).user = none) := by
  refine ⟨?_, fun x => rfl, fun s fp fn => rfl, fun s site path => rfl⟩
  intro u
  cases u with
  | none => simp [subscriptionFilter]
  | some x => simp [subscriptionFilter]

/-- Claim C10: a change-feed event whose type is none of INSERT, UPDATE,
DELETE dispatches nothing and emits no toast — the snapshot is unchanged. -/
theorem unknown_event_noop (captured : List Notification) (p : ChangePayload)
    (h1 : p.eventType ≠ "INSERT") (h2 : p.eventType ≠ "UPDATE")
    (h3 : p.eventType ≠ "DELETE") :
    handleChange captured p = (none, none)
    ∧ ∀ s : State, applyChange captured s p = (s, none) := by
  have hc : handleChange captured p = (none, none) := by
    simp [handleChange, h1, h2, h3]
  exact ⟨hc, fun s => by simp [applyChange, hc]⟩

/-- Witness for C10: a TRUNCATE event is a no-op. -/
theorem unknown_event_noop_witness :
    handleChange [] (mkPayload "TRUNCATE" (mkNotification "n1" "Hi") (mkNotification "n1" "Hi"))
      = (none, none)
    ∧ applyChange [] (initialState none none [])
        (mkPayload "TRUNCATE" (mkNotification "n1" "Hi") (mkNotification "n1" "Hi"))
      = (initialState none none [], none) := by
  have h := unknown_event_noop []
      (mkPayload "TRUNCATE" (mkNotification "n1" "Hi") (mkNotification "n1" "Hi"))
      (by decide) (by decide) (by decide)
  exact ⟨h.1, h.2 (initialState none none [])⟩

end OwnerSignIn
